import Mathlib

/-!
Verification development for the Relic repository's config validator
(`src/tools/config_validator.py`).

The Python module is embedded shallowly: Python values become the inductive
type `Value`, Python floats are modelled as rationals (every numeric literal
appearing in the schema registry and in the documents considered here is
exactly representable, and only order comparisons on such literals occur),
Python `isinstance` is modelled including the fact that `bool` is a subclass
of `int`, and the mutation of a `ValidationResult` by `add_error` /
`add_warning` becomes explicit state passing.  Python f-strings become string
concatenation.  File loading (`load_config_file`) is I/O and stays outside
the embedding; `validate_parsed` models `validate_file` from the point where
the parsed document is in hand.  The `.lower()` call on a non-string `type`
discriminator raises `AttributeError` in Python; the embedding makes this an
explicit `Except` error (`PyExn`).
-/

namespace Relic

/-- Python runtime values as they occur in parsed YAML/JSON documents. -/
inductive Value where
  | vstr (s : String)
  | vint (n : Int)
  | vfloat (q : ℚ)
  | vbool (b : Bool)
  | vlist (l : List Value)
  | vdict (d : List (String × Value))
  | vnone

/-- The `ConfigType` enum of `config_validator.py`, in declaration order. -/
inductive ConfigType where
  | ERA_CONFIG
  | UNIT_ARCHETYPE
  | WEAPON_STATS
  | UPGRADE_DEFINITION
  deriving DecidableEq, Repr

/-- Canonical name string of each member (`ConfigType.value`). -/
def ConfigType.value : ConfigType → String
  | .ERA_CONFIG => "EraConfig"
  | .UNIT_ARCHETYPE => "UnitArchetype"
  | .WEAPON_STATS => "WeaponStats"
  | .UPGRADE_DEFINITION => "UpgradeDefinition"

/-- Iteration order of `for config_type in ConfigType`. -/
def ConfigType.members : List ConfigType :=
  [.ERA_CONFIG, .UNIT_ARCHETYPE, .WEAPON_STATS, .UPGRADE_DEFINITION]

/-- Python type name of a value, as interpolated into messages. -/
def Value.typeName : Value → String
  | .vstr _ => "str"
  | .vint _ => "int"
  | .vfloat _ => "float"
  | .vbool _ => "bool"
  | .vlist _ => "list"
  | .vdict _ => "dict"
  | .vnone => "NoneType"

/-- Decimal digits of the fractional part `r / d`, with fuel.  Every float
literal in the repository terminates well within the fuel. -/
def fracDigits : Nat → Nat → Nat → String
  | 0, _, _ => ""
  | _ + 1, 0, _ => ""
  | fuel + 1, r, d =>
      let r10 := r * 10
      toString (r10 / d) ++ fracDigits fuel (r10 % d) d

/-- Python `str()` of a float, for the rationals arising from float
literals (terminating decimal expansions). -/
def qToString (q : ℚ) : String :=
  let sign := if q.num < 0 then "-" else ""
  let n := q.num.natAbs
  let i := n / q.den
  let r := n % q.den
  if r = 0 then sign ++ toString i ++ ".0"
  else sign ++ toString i ++ "." ++ fracDigits 30 r q.den

/-- Python `str(value)` as used inside the f-strings of the validator
(only numeric values reach those f-strings). -/
def Value.pyStr : Value → String
  | .vstr s => s
  | .vint n => toString n
  | .vfloat q => qToString q
  | .vbool b => if b then "True" else "False"
  | .vlist _ => "[...]"
  | .vdict _ => "\x7b...\x7d"
  | .vnone => "None"

/-- The expected-type annotations used by the schema registry: `str`,
`int`, `list`, `dict` and the tuple `(int, float)`. -/
inductive FieldType where
  | tyStr
  | tyInt
  | tyList
  | tyDict
  | tyNum
  deriving DecidableEq, Repr

/-- Type name as printed in "Expected ..." messages (`t.__name__`, joined
with " or " for the tuple case). -/
def FieldType.pyName : FieldType → String
  | .tyStr => "str"
  | .tyInt => "int"
  | .tyList => "list"
  | .tyDict => "dict"
  | .tyNum => "int or float"

/-- Python `isinstance(value, expected)`.  Note that in Python `bool` is a
subclass of `int`, so booleans satisfy `int` and `(int, float)`. -/
def isinst (v : Value) : FieldType → Bool
  | .tyStr => match v with | .vstr _ => true | _ => false
  | .tyInt => match v with | .vint _ => true | .vbool _ => true | _ => false
  | .tyList => match v with | .vlist _ => true | _ => false
  | .tyDict => match v with | .vdict _ => true | _ => false
  | .tyNum =>
      match v with
      | .vint _ => true | .vbool _ => true | .vfloat _ => true | _ => false

/-- The numeric content of a value when `isinstance(value, (int, float))`
holds (`True` counts as 1 and `False` as 0, as in Python). -/
def Value.toNum? : Value → Option ℚ
  | .vint n => some (n : ℚ)
  | .vfloat q => some q
  | .vbool b => some (if b then 1 else 0)
  | _ => none

/-- Numeric content of a schema constant (all constraint bounds in the
registry are numeric literals). -/
def numVal (v : Value) : ℚ := (v.toNum?).getD 0

/-- A `{"min": ..., "max": ...}` constraint entry; either bound may be
absent, matching the membership tests in `validate_constraints`. -/
structure Constraint where
  minB : Option Value
  maxB : Option Value

/-- The `ValidationError` dataclass: `(path, message, severity)`. -/
structure ValidationError where
  path : String
  message : String
  severity : String
  deriving DecidableEq, Repr

/-- The `ValidationResult` dataclass.  The Python object is mutated by
appending; the embedding passes the record explicitly. -/
structure ValidationResult where
  file_path : String
  config_type : Option ConfigType
  errors : List ValidationError
  warnings : List ValidationError
  deriving DecidableEq, Repr

/-- Validity of a result (`ValidationResult.is_valid`): no errors recorded. -/
def ValidationResult.is_valid (r : ValidationResult) : Bool :=
  r.errors.length == 0

/-- Appending an error (`ValidationResult.add_error`). -/
def ValidationResult.add_error (r : ValidationResult) (path message : String) :
    ValidationResult :=
  { r with errors := r.errors ++ [⟨path, message, "error"⟩] }

/-- Appending a warning (`ValidationResult.add_warning`). -/
def ValidationResult.add_warning (r : ValidationResult) (path message : String) :
    ValidationResult :=
  { r with warnings := r.warnings ++ [⟨path, message, "warning"⟩] }

/-- A fresh result with empty error and warning lists, used to express the
pure contribution of each validation pass. -/
def blankResult : ValidationResult := ⟨"", none, [], []⟩

/-- Schema registry entry.  `EraConfig` has no `constraints` key in the
source; an empty association list is behaviourally identical (the guard
`"constraints" in schema and field_name in schema["constraints"]` becomes a
failing lookup).  `nested_schemas` is carried verbatim from the source. -/
structure Schema where
  required_fields : List (String × FieldType)
  optional_fields : List (String × FieldType)
  constraints : List (String × Constraint)
  nested_schemas : List (String × String)

/-- The `SCHEMAS` registry, transcribed entry by entry. -/
def SCHEMAS : List (ConfigType × Schema) :=
  [ (.ERA_CONFIG,
     { required_fields := [("name", .tyStr), ("archetypes", .tyList)]
       optional_fields :=
         [("description", .tyStr), ("visual_style", .tyStr), ("upgrades", .tyList)]
       constraints := []
       nested_schemas :=
         [("archetypes", "UnitArchetype"), ("upgrades", "UpgradeDefinition")] }),
    (.UNIT_ARCHETYPE,
     { required_fields :=
         [("id", .tyStr), ("base_health", .tyNum), ("base_move_speed", .tyNum)]
       optional_fields :=
         [("name", .tyStr), ("description", .tyStr), ("weapon", .tyStr),
          ("weapon_stats", .tyDict), ("prefab", .tyStr)]
       constraints :=
         [("base_health", ⟨some (.vint 0), some (.vint 10000)⟩),
          ("base_move_speed", ⟨some (.vint 0), some (.vint 100)⟩)]
       nested_schemas := [] }),
    (.WEAPON_STATS,
     { required_fields :=
         [("name", .tyStr), ("shots_per_burst", .tyInt), ("fire_rate", .tyNum),
          ("base_hit_chance", .tyNum), ("base_damage", .tyNum)]
       optional_fields :=
         [("effective_range", .tyNum), ("range_curve", .tyList),
          ("elevation_curve", .tyList), ("description", .tyStr)]
       constraints :=
         [("shots_per_burst", ⟨some (.vint 1), some (.vint 100)⟩),
          ("fire_rate", ⟨some (.vfloat (mkRat 1 10)), some (.vint 100)⟩),
          ("base_hit_chance", ⟨some (.vint 0), some (.vint 1)⟩),
          ("base_damage", ⟨some (.vint 0), some (.vint 10000)⟩),
          ("effective_range", ⟨some (.vint 0), some (.vint 1000)⟩)]
       nested_schemas := [] }),
    (.UPGRADE_DEFINITION,
     { required_fields := [("name", .tyStr)]
       optional_fields :=
         [("description", .tyStr), ("hit_chance_multiplier", .tyNum),
          ("damage_multiplier", .tyNum), ("elevation_bonus", .tyNum),
          ("cost", .tyInt)]
       constraints :=
         [("hit_chance_multiplier", ⟨some (.vint 0), some (.vint 10)⟩),
          ("damage_multiplier", ⟨some (.vint 0), some (.vint 10)⟩),
          ("elevation_bonus", ⟨some (.vint (-1)), some (.vint 1)⟩),
          ("cost", ⟨some (.vint 0), some (.vint 100000)⟩)]
       nested_schemas := [] }) ]

/-- The schema of a config type.  `SCHEMAS.lookup` succeeds for every
member (`SCHEMAS_lookup_eq` below), so the default is never used. -/
def schemaOf (ct : ConfigType) : Schema :=
  match SCHEMAS.lookup ct with
  | some s => s
  | none => ⟨[], [], [], []⟩

/-- The exception raised by calling `.lower()` on a non-string value. -/
inductive PyExn where
  | attributeError (msg : String)
  deriving DecidableEq, Repr

/-- Python `str.lower` (all names compared in the validator are ASCII);
implemented on the character list so that it is kernel-computable. -/
def pyLower (s : String) : String := ⟨s.data.map Char.toLower⟩

/-- Python `str.endswith`, on the character list. -/
def pyEndsWith (s suffix : String) : Bool :=
  suffix.data.isSuffixOf s.data

instance exceptDecEq {ε α : Type} [DecidableEq ε] [DecidableEq α] :
    DecidableEq (Except ε α) := fun x y =>
  match x, y with
  | .ok a, .ok b =>
      if h : a = b then isTrue (by rw [h]) else isFalse (by simp [h])
  | .error a, .error b =>
      if h : a = b then isTrue (by rw [h]) else isFalse (by simp [h])
  | .ok _, .error _ => isFalse (by simp)
  | .error _, .ok _ => isFalse (by simp)

/-- Kind detection (`detect_config_type`).  An explicit string discriminator is matched
case-insensitively against the members in declaration order; a present but
non-string discriminator raises `AttributeError` (`type_str.lower()`);
otherwise the structural heuristics run in their fixed order. -/
def detect_config_type (data : List (String × Value)) :
    Except PyExn (Option ConfigType) :=
  let heur : Option ConfigType :=
    if (data.lookup "archetypes").isSome then some .ERA_CONFIG
    else if (data.lookup "shots_per_burst").isSome
         || (data.lookup "fire_rate").isSome then some .WEAPON_STATS
    else if (data.lookup "hit_chance_multiplier").isSome
         || (data.lookup "damage_multiplier").isSome then some .UPGRADE_DEFINITION
    else if (data.lookup "base_health").isSome
         || (data.lookup "base_move_speed").isSome then some .UNIT_ARCHETYPE
    else none
  match data.lookup "type" with
  | some (.vstr s) =>
      match ConfigType.members.find? (fun ct => pyLower ct.value == pyLower s) with
      | some ct => .ok (some ct)
      | none => .ok heur
  | some v =>
      .error (.attributeError (v.typeName ++ " object has no attribute lower"))
  | none => .ok heur

/-- Type checking (`validate_field_type`): both source branches (single type and tuple of
types) produce `Expected <names>, got <type>`; `FieldType.pyName` renders
the joined names, so the branches coincide. -/
def validate_field_type (value : Value) (expected : FieldType)
    (field_path : String) (result : ValidationResult) :
    Bool × ValidationResult :=
  if isinst value expected then (true, result)
  else
    (false,
     result.add_error field_path
       ("Expected " ++ expected.pyName ++ ", got " ++ value.typeName))

/-- Constraint checking (`validate_constraints`): returns the result unchanged for values that
are not `isinstance(value, (int, float))`; otherwise checks the present
bounds. -/
def validate_constraints (value : Value) (constraints : Constraint)
    (field_path : String) (result : ValidationResult) : ValidationResult :=
  match value.toNum? with
  | none => result
  | some q =>
      let r1 :=
        match constraints.minB with
        | some m =>
            if q < numVal m then
              result.add_error field_path
                ("Value " ++ value.pyStr ++ " is below minimum " ++ m.pyStr)
            else result
        | none => result
      match constraints.maxB with
      | some mx =>
          if q > numVal mx then
            r1.add_error field_path
              ("Value " ++ value.pyStr ++ " exceeds maximum " ++ mx.pyStr)
          else r1
      | none => r1

/-- Body of the `for index, point in enumerate(curve)` loop of
`validate_curve`, for one point with its point path. -/
def curvePointCheck (point_path : String) (point : Value)
    (result : ValidationResult) : ValidationResult :=
  match point with
  | .vlist [xv, yv] =>
      let r1 :=
        if isinst xv .tyNum then result
        else
          result.add_error (point_path ++ "[0]")
            ("X value must be numeric, got " ++ xv.typeName)
      if isinst yv .tyNum then r1
      else
        r1.add_error (point_path ++ "[1]")
          ("Y value must be numeric, got " ++ yv.typeName)
  | .vlist _ => result.add_error point_path "Each curve point must be [x, y]"
  | _ => result.add_error point_path "Each curve point must be [x, y]"

/-- The enumeration loop of `validate_curve`, carrying the running index. -/
def curvePointsLoop (field_path : String) :
    Nat → List Value → ValidationResult → ValidationResult
  | _, [], result => result
  | index, point :: rest, result =>
      curvePointsLoop field_path (index + 1) rest
        (curvePointCheck (field_path ++ "[" ++ toString index ++ "]") point result)

/-- Curve validation (`validate_curve`). -/
def validate_curve (curve : Value) (field_path : String)
    (result : ValidationResult) : ValidationResult :=
  match curve with
  | .vlist points => curvePointsLoop field_path 0 points result
  | _ => result.add_error field_path "Curve must be a list of [x, y] pairs"

/-- Path composition: the bare field name when the prefix is empty string,
otherwise the prefix, a dot, and the field name, as the source f-string
builds it. -/
def fieldPathOf (ppath field_name : String) : String :=
  if ppath = "" then field_name else ppath ++ "." ++ field_name

/-- Body of the required-fields loop of `validate_config`.  Note the return
value of `validate_field_type` is discarded (as in the source), so the
constraint check runs even after a failed type check. -/
def requiredFieldStep (data : List (String × Value))
    (cons : List (String × Constraint)) (ppath : String)
    (result : ValidationResult) (fld : String × FieldType) : ValidationResult :=
  let field_path := fieldPathOf ppath fld.1
  match data.lookup fld.1 with
  | none =>
      result.add_error field_path
        ("Required field \x27" ++ fld.1 ++ "\x27 is missing")
  | some v =>
      let r1 := (validate_field_type v fld.2 field_path result).2
      match cons.lookup fld.1 with
      | some c => validate_constraints v c field_path r1
      | none => r1

/-- Body of the optional-fields loop of `validate_config` (fields present
and not `None`; curve-suffixed list values additionally go through
`validate_curve`). -/
def optionalFieldStep (data : List (String × Value))
    (cons : List (String × Constraint)) (ppath : String)
    (result : ValidationResult) (fld : String × FieldType) : ValidationResult :=
  match data.lookup fld.1 with
  | none => result
  | some .vnone => result
  | some v =>
      let field_path := fieldPathOf ppath fld.1
      let r1 := (validate_field_type v fld.2 field_path result).2
      let r2 :=
        match cons.lookup fld.1 with
        | some c => validate_constraints v c field_path r1
        | none => r1
      if pyEndsWith fld.1 "_curve" && isinst v .tyList then
        validate_curve v field_path r2
      else r2

/-- Body of the unknown-fields loop of `validate_config`. -/
def unknownFieldStep (known : List String) (ppath : String)
    (result : ValidationResult) (kv : String × Value) : ValidationResult :=
  if kv.1 ∈ known then result
  else
    result.add_warning (fieldPathOf ppath kv.1)
      ("Unknown field \x27" ++ kv.1 ++ "\x27")

/-- The main checker, `validate_config` of the source. -/
def validate_config (data : List (String × Value)) (config_type : ConfigType)
    (result : ValidationResult) (ppath : String) : ValidationResult :=
  match SCHEMAS.lookup config_type with
  | none =>
      result.add_error (if ppath = "" then "root" else ppath)
        ("Unknown config type: " ++ config_type.value)
  | some schema =>
      let r1 := schema.required_fields.foldl
        (requiredFieldStep data schema.constraints ppath) result
      let r2 := schema.optional_fields.foldl
        (optionalFieldStep data schema.constraints ppath) r1
      let known := schema.required_fields.map Prod.fst
        ++ schema.optional_fields.map Prod.fst ++ ["type"]
      data.foldl (unknownFieldStep known ppath) r2

/-- Models `validate_file` from the point where `load_config_file` has produced a
parsed value (the file I/O itself is outside the embedding).  A raised
`AttributeError` from `detect_config_type` propagates uncaught. -/
def validate_parsed (file_path : String) (data : Value) :
    Except PyExn ValidationResult :=
  let result : ValidationResult := ⟨file_path, none, [], []⟩
  match data with
  | .vdict d =>
      match detect_config_type d with
      | .error e => .error e
      | .ok none =>
          .ok (result.add_error "root"
            "Unable to detect config type. Add \x27type\x27 field or use recognizable field names.")
      | .ok (some ct) =>
          let result := { result with config_type := some ct }
          .ok (validate_config d ct result "")
  | other =>
      .ok (result.add_error "root" ("Expected dictionary, got " ++ other.typeName))

/-- The set of declared field names plus the reserved discriminator, as
computed inside `validate_config`. -/
def knownFieldsOf (ct : ConfigType) : List String :=
  (schemaOf ct).required_fields.map Prod.fst
    ++ (schemaOf ct).optional_fields.map Prod.fst ++ ["type"]

/-- The constraint declared for a field, defaulting to the unconstrained
entry (under which `inRangeB` is vacuously true). -/
def consOf (ct : ConfigType) (f : String) : Constraint :=
  ((schemaOf ct).constraints.lookup f).getD ⟨none, none⟩

/-- Boolean in-range predicate for a value against a constraint: vacuous
for non-numeric values (which `validate_constraints` skips). -/
def inRangeB (v : Value) (c : Constraint) : Bool :=
  match v.toNum? with
  | none => true
  | some q =>
      (match c.minB with
       | some m => decide (numVal m ≤ q)
       | none => true)
      &&
      (match c.maxB with
       | some mx => decide (q ≤ numVal mx)
       | none => true)

/-- A well-formed curve: every point is a two-element list of numerics. -/
def curvePointsOK (pts : List Value) : Bool :=
  pts.all fun p =>
    match p with
    | .vlist [x, y] => isinst x .tyNum && isinst y .tyNum
    | _ => false

/-- A constraint whose declared bounds are consistent (`min ≤ max`); every
entry of the registry satisfies this. -/
def consSoundB (c : Constraint) : Bool :=
  match c.minB, c.maxB with
  | some m, some mx => decide (numVal m ≤ numVal mx)
  | _, _ => true

/-- Pure error contribution of one required-field iteration. -/
def reqErrorsOf (data : List (String × Value)) (cons : List (String × Constraint))
    (ppath : String) (fld : String × FieldType) : List ValidationError :=
  (requiredFieldStep data cons ppath blankResult fld).errors

/-- Pure error contribution of one optional-field iteration. -/
def optErrorsOf (data : List (String × Value)) (cons : List (String × Constraint))
    (ppath : String) (fld : String × FieldType) : List ValidationError :=
  (optionalFieldStep data cons ppath blankResult fld).errors

/-- Pure warning contribution of one unknown-field iteration. -/
def unkWarningsOf (known : List String) (ppath : String) (kv : String × Value) :
    List ValidationError :=
  (unknownFieldStep known ppath blankResult kv).warnings

/-- The function `f` only appends to the result: the previously accumulated errors and
warnings are preserved as a prefix, and the contribution is the run from a
fresh result (hence a pure function of the other inputs). -/
def Appends (f : ValidationResult → ValidationResult) : Prop :=
  ∀ r : ValidationResult,
    f r = { r with errors := r.errors ++ (f blankResult).errors,
                   warnings := r.warnings ++ (f blankResult).warnings }

lemma appends_id : Appends (fun r => r) := by
  intro r; simp [blankResult]

lemma appends_addError (p m : String) :
    Appends (fun r => r.add_error p m) := by
  intro r; simp [ValidationResult.add_error, blankResult]

lemma appends_addWarning (p m : String) :
    Appends (fun r => r.add_warning p m) := by
  intro r; simp [ValidationResult.add_warning, blankResult]

lemma appends_comp {f g : ValidationResult → ValidationResult}
    (hf : Appends f) (hg : Appends g) : Appends (fun r => g (f r)) := by
  intro r
  show g (f r)
      = { r with errors := r.errors ++ (g (f blankResult)).errors,
                 warnings := r.warnings ++ (g (f blankResult)).warnings }
  rw [hg (f r), hf r, hg (f blankResult), hf blankResult]
  simp [blankResult, List.append_assoc]

lemma appends_ite (c : Prop) [Decidable c]
    {f g : ValidationResult → ValidationResult}
    (hf : Appends f) (hg : Appends g) :
    Appends (fun r => if c then f r else g r) := by
  intro r
  by_cases h : c <;> simp only [h, if_true, if_false] <;> [exact hf r; exact hg r]

lemma appends_vft (v : Value) (t : FieldType) (fp : String) :
    Appends (fun r => (validate_field_type v t fp r).2) := by
  cases h : isinst v t <;>
    simp only [validate_field_type, h, Bool.false_eq_true, if_true, if_false] <;>
    [exact appends_addError _ _; exact appends_id]

lemma appends_vc (v : Value) (c : Constraint) (fp : String) :
    Appends (fun r => validate_constraints v c fp r) := by
  unfold validate_constraints
  cases hv : v.toNum? with
  | none => exact appends_id
  | some q =>
      cases hm : c.minB <;> cases hx : c.maxB <;> simp only []
      · exact appends_id
      · exact appends_ite _ (appends_addError _ _) appends_id
      · exact appends_ite _ (appends_addError _ _) appends_id
      · exact appends_comp (appends_ite _ (appends_addError _ _) appends_id)
          (appends_ite _ (appends_addError _ _) appends_id)

lemma appends_curvePointCheck (pp : String) (point : Value) :
    Appends (fun r => curvePointCheck pp point r) := by
  unfold curvePointCheck
  match point with
  | .vlist [xv, yv] =>
      simp only []
      exact appends_comp
        (appends_ite _ appends_id (appends_addError _ _))
        (appends_ite _ appends_id (appends_addError _ _))
  | .vlist [] => exact appends_addError _ _
  | .vlist [x] => exact appends_addError _ _
  | .vlist (a :: b :: c :: l) => exact appends_addError _ _
  | .vstr s => exact appends_addError _ _
  | .vint n => exact appends_addError _ _
  | .vfloat q => exact appends_addError _ _
  | .vbool b => exact appends_addError _ _
  | .vdict d => exact appends_addError _ _
  | .vnone => exact appends_addError _ _

lemma appends_curvePointsLoop (fp : String) (pts : List Value) (i : Nat) :
    Appends (fun r => curvePointsLoop fp i pts r) := by
  induction pts generalizing i with
  | nil => exact appends_id
  | cons p rest ih =>
      have heq : (fun r => curvePointsLoop fp i (p :: rest) r)
          = fun r => curvePointsLoop fp (i + 1) rest
              (curvePointCheck (fp ++ "[" ++ toString i ++ "]") p r) := rfl
      rw [heq]
      exact appends_comp (appends_curvePointCheck _ p) (ih (i + 1))

lemma appends_validate_curve (curve : Value) (fp : String) :
    Appends (fun r => validate_curve curve fp r) := by
  unfold validate_curve
  match curve with
  | .vlist points => exact appends_curvePointsLoop fp points 0
  | .vstr s => exact appends_addError _ _
  | .vint n => exact appends_addError _ _
  | .vfloat q => exact appends_addError _ _
  | .vbool b => exact appends_addError _ _
  | .vdict d => exact appends_addError _ _
  | .vnone => exact appends_addError _ _

lemma appends_requiredFieldStep (data : List (String × Value))
    (cons : List (String × Constraint)) (pp : String) (fld : String × FieldType) :
    Appends (fun r => requiredFieldStep data cons pp r fld) := by
  unfold requiredFieldStep
  cases hl : data.lookup fld.1 with
  | none => simp only [hl]; exact appends_addError _ _
  | some v =>
      simp only [hl]
      cases hc : cons.lookup fld.1 with
      | none => simp only [hc]; exact appends_vft _ _ _
      | some c =>
          simp only [hc]
          exact appends_comp (appends_vft _ _ _) (appends_vc _ _ _)

lemma appends_optionalFieldStep (data : List (String × Value))
    (cons : List (String × Constraint)) (pp : String) (fld : String × FieldType) :
    Appends (fun r => optionalFieldStep data cons pp r fld) := by
  unfold optionalFieldStep
  cases hl : data.lookup fld.1 with
  | none => simp only [hl]; exact appends_id
  | some v =>
      simp only [hl]
      have hbody : ∀ w : Value,
          Appends (fun r =>
            if pyEndsWith fld.1 "_curve" && isinst w .tyList then
              validate_curve w (fieldPathOf pp fld.1)
                (match cons.lookup fld.1 with
                 | some c => validate_constraints w c (fieldPathOf pp fld.1)
                     (validate_field_type w fld.2 (fieldPathOf pp fld.1) r).2
                 | none => (validate_field_type w fld.2 (fieldPathOf pp fld.1) r).2)
            else
              (match cons.lookup fld.1 with
               | some c => validate_constraints w c (fieldPathOf pp fld.1)
                   (validate_field_type w fld.2 (fieldPathOf pp fld.1) r).2
               | none => (validate_field_type w fld.2 (fieldPathOf pp fld.1) r).2)) := by
        intro w
        have hmid : Appends (fun r =>
            (match cons.lookup fld.1 with
             | some c => validate_constraints w c (fieldPathOf pp fld.1)
                 (validate_field_type w fld.2 (fieldPathOf pp fld.1) r).2
             | none => (validate_field_type w fld.2 (fieldPathOf pp fld.1) r).2)) := by
          cases hc : cons.lookup fld.1 with
          | none => simp only [hc]; exact appends_vft _ _ _
          | some c =>
              simp only [hc]
              exact appends_comp (appends_vft _ _ _) (appends_vc _ _ _)
        cases hcond : (pyEndsWith fld.1 "_curve" && isinst w .tyList) with
        | false => simp only [hcond, Bool.false_eq_true, if_false]; exact hmid
        | true =>
            simp only [hcond, if_true]
            exact appends_comp hmid (appends_validate_curve _ _)
      cases v with
      | vnone => exact appends_id
      | vstr s => exact hbody (.vstr s)
      | vint n => exact hbody (.vint n)
      | vfloat q => exact hbody (.vfloat q)
      | vbool b => exact hbody (.vbool b)
      | vlist l => exact hbody (.vlist l)
      | vdict d => exact hbody (.vdict d)

lemma appends_unknownFieldStep (known : List String) (pp : String)
    (kv : String × Value) :
    Appends (fun r => unknownFieldStep known pp r kv) := by
  unfold unknownFieldStep
  exact appends_ite _ appends_id (appends_addWarning _ _)

lemma appends_foldl {α : Type} (step : ValidationResult → α → ValidationResult)
    (h : ∀ a, Appends (fun r => step r a)) (l : List α) :
    Appends (fun r => l.foldl step r) := by
  induction l with
  | nil => exact appends_id
  | cons a t ih =>
      have heq : (fun r => (a :: t).foldl step r)
          = fun r => t.foldl step (step r a) := rfl
      rw [heq]
      exact appends_comp (h a) ih

lemma appends_validate_config (data : List (String × Value)) (ct : ConfigType)
    (pp : String) :
    Appends (fun r => validate_config data ct r pp) := by
  unfold validate_config
  cases hs : SCHEMAS.lookup ct with
  | none => simp only [hs]; exact appends_addError _ _
  | some s =>
      simp only [hs]
      exact appends_comp
        (appends_foldl _ (fun fld => appends_requiredFieldStep data s.constraints pp fld)
          s.required_fields)
        (appends_comp
          (appends_foldl _ (fun fld => appends_optionalFieldStep data s.constraints pp fld)
            s.optional_fields)
          (appends_foldl _ (fun kv => appends_unknownFieldStep _ pp kv) data))

lemma SCHEMAS_lookup_eq (ct : ConfigType) :
    SCHEMAS.lookup ct = some (schemaOf ct) := by
  cases ct <;> rfl

lemma is_valid_iff (r : ValidationResult) :
    r.is_valid = true ↔ r.errors = [] := by
  simp [ValidationResult.is_valid, List.length_eq_zero]

lemma vft_snd_warnings (v : Value) (t : FieldType) (fp : String)
    (r : ValidationResult) :
    ((validate_field_type v t fp r).2).warnings = r.warnings := by
  cases h : isinst v t <;>
    simp [validate_field_type, h, ValidationResult.add_error]

lemma vc_warnings (v : Value) (c : Constraint) (fp : String)
    (r : ValidationResult) :
    (validate_constraints v c fp r).warnings = r.warnings := by
  unfold validate_constraints
  cases hv : v.toNum? with
  | none => rfl
  | some q =>
      cases hm : c.minB <;> cases hx : c.maxB <;>
        simp [ValidationResult.add_error, apply_ite ValidationResult.warnings,
          ite_self]

lemma curve_warnings (curve : Value) (fp : String) (r : ValidationResult) :
    (validate_curve curve fp r).warnings = r.warnings := by
  have h := appends_validate_curve curve fp r
  simp only [h]
  suffices hb : (validate_curve curve fp blankResult).warnings = [] by
    rw [hb, List.append_nil]
  have hcheck : ∀ (pp : String) (p : Value) (r0 : ValidationResult),
      (curvePointCheck pp p r0).warnings = r0.warnings := by
    intro pp p r0
    unfold curvePointCheck
    match p with
    | .vlist [xv, yv] =>
        cases hx : isinst xv .tyNum <;> cases hy : isinst yv .tyNum <;>
          simp [hx, hy, ValidationResult.add_error]
    | .vlist [] => simp [ValidationResult.add_error]
    | .vlist [x] => simp [ValidationResult.add_error]
    | .vlist (a :: b :: c :: l) => simp [ValidationResult.add_error]
    | .vstr s => simp [ValidationResult.add_error]
    | .vint n => simp [ValidationResult.add_error]
    | .vfloat q => simp [ValidationResult.add_error]
    | .vbool b => simp [ValidationResult.add_error]
    | .vdict d => simp [ValidationResult.add_error]
    | .vnone => simp [ValidationResult.add_error]
  have hloop : ∀ (pts : List Value) (i : Nat) (r0 : ValidationResult),
      (curvePointsLoop fp i pts r0).warnings = r0.warnings := by
    intro pts
    induction pts with
    | nil => intro i r0; rfl
    | cons p rest ih =>
        intro i r0
        show (curvePointsLoop fp (i + 1) rest _).warnings = r0.warnings
        rw [ih (i + 1), hcheck]
  unfold validate_curve
  match curve with
  | .vlist points => exact hloop points 0 blankResult
  | .vstr s => simp [ValidationResult.add_error, blankResult]
  | .vint n => simp [ValidationResult.add_error, blankResult]
  | .vfloat q => simp [ValidationResult.add_error, blankResult]
  | .vbool b => simp [ValidationResult.add_error, blankResult]
  | .vdict d => simp [ValidationResult.add_error, blankResult]
  | .vnone => simp [ValidationResult.add_error, blankResult]

lemma reqStep_warnings (data : List (String × Value))
    (cons : List (String × Constraint)) (pp : String) (r : ValidationResult)
    (fld : String × FieldType) :
    (requiredFieldStep data cons pp r fld).warnings = r.warnings := by
  unfold requiredFieldStep
  cases hl : data.lookup fld.1 with
  | none => simp [ValidationResult.add_error]
  | some v =>
      cases hc : cons.lookup fld.1 <;>
        simp [vc_warnings, vft_snd_warnings]

lemma optStep_warnings (data : List (String × Value))
    (cons : List (String × Constraint)) (pp : String) (r : ValidationResult)
    (fld : String × FieldType) :
    (optionalFieldStep data cons pp r fld).warnings = r.warnings := by
  have h := appends_optionalFieldStep data cons pp fld r
  simp only [h]
  suffices hb : (optionalFieldStep data cons pp blankResult fld).warnings = [] by
    rw [hb, List.append_nil]
  unfold optionalFieldStep
  cases hl : data.lookup fld.1 with
  | none => simp [hl, blankResult]
  | some v =>
      cases v <;> simp only [hl] <;>
        cases hc : cons.lookup fld.1 <;>
          simp [hc, apply_ite ValidationResult.warnings, curve_warnings,
            vc_warnings, vft_snd_warnings, blankResult, ite_self]

lemma unkStep_errors (known : List String) (pp : String) (r : ValidationResult)
    (kv : String × Value) :
    (unknownFieldStep known pp r kv).errors = r.errors := by
  unfold unknownFieldStep
  split <;> simp [ValidationResult.add_warning]

lemma foldl_preserves_errors {α : Type}
    (step : ValidationResult → α → ValidationResult)
    (h : ∀ (r : ValidationResult) (a : α), (step r a).errors = r.errors)
    (l : List α) (r : ValidationResult) :
    (l.foldl step r).errors = r.errors := by
  induction l generalizing r with
  | nil => rfl
  | cons a t ih => rw [List.foldl_cons, ih, h]

lemma foldl_preserves_warnings {α : Type}
    (step : ValidationResult → α → ValidationResult)
    (h : ∀ (r : ValidationResult) (a : α), (step r a).warnings = r.warnings)
    (l : List α) (r : ValidationResult) :
    (l.foldl step r).warnings = r.warnings := by
  induction l generalizing r with
  | nil => rfl
  | cons a t ih => rw [List.foldl_cons, ih, h]

lemma foldl_errors {α : Type} (step : ValidationResult → α → ValidationResult)
    (h : ∀ a, Appends (fun r => step r a)) (l : List α) (r : ValidationResult) :
    (l.foldl step r).errors
      = r.errors ++ (l.map fun a => (step blankResult a).errors).flatten := by
  induction l generalizing r with
  | nil => simp
  | cons a t ih =>
      have h2 : step r a
          = { r with errors := r.errors ++ (step blankResult a).errors,
                     warnings := r.warnings ++ (step blankResult a).warnings } :=
        h a r
      rw [List.foldl_cons, ih (step r a), h2]
      simp [List.append_assoc]

lemma foldl_warnings {α : Type} (step : ValidationResult → α → ValidationResult)
    (h : ∀ a, Appends (fun r => step r a)) (l : List α) (r : ValidationResult) :
    (l.foldl step r).warnings
      = r.warnings ++ (l.map fun a => (step blankResult a).warnings).flatten := by
  induction l generalizing r with
  | nil => simp
  | cons a t ih =>
      have h2 : step r a
          = { r with errors := r.errors ++ (step blankResult a).errors,
                     warnings := r.warnings ++ (step blankResult a).warnings } :=
        h a r
      rw [List.foldl_cons, ih (step r a), h2]
      simp [List.append_assoc]

/-- The errors of a top-level validation run are exactly the concatenated
per-field contributions of the required-fields pass followed by the
optional-fields pass; the unknown-fields pass never produces errors. -/
lemma validate_config_blank_errors (data : List (String × Value))
    (ct : ConfigType) (pp : String) :
    (validate_config data ct blankResult pp).errors
      = ((schemaOf ct).required_fields.map
            (fun fld => reqErrorsOf data (schemaOf ct).constraints pp fld)).flatten
        ++ ((schemaOf ct).optional_fields.map
            (fun fld => optErrorsOf data (schemaOf ct).constraints pp fld)).flatten := by
  unfold validate_config
  rw [SCHEMAS_lookup_eq ct]
  simp only []
  rw [foldl_preserves_errors _ (fun r kv => unkStep_errors _ pp r kv)]
  rw [foldl_errors _ (fun fld => appends_optionalFieldStep data _ pp fld)]
  rw [foldl_errors _ (fun fld => appends_requiredFieldStep data _ pp fld)]
  simp [blankResult, reqErrorsOf, optErrorsOf]

/-- The warnings of a top-level validation run are exactly the per-entry
contributions of the unknown-fields pass. -/
lemma validate_config_blank_warnings (data : List (String × Value))
    (ct : ConfigType) (pp : String) :
    (validate_config data ct blankResult pp).warnings
      = (data.map (fun kv => unkWarningsOf (knownFieldsOf ct) pp kv)).flatten := by
  unfold validate_config
  rw [SCHEMAS_lookup_eq ct]
  simp only []
  rw [foldl_warnings _ (fun kv => appends_unknownFieldStep _ pp kv)]
  rw [foldl_preserves_warnings _ (fun r fld => optStep_warnings data _ pp r fld)]
  rw [foldl_preserves_warnings _ (fun r fld => reqStep_warnings data _ pp r fld)]
  simp [blankResult, unkWarningsOf, knownFieldsOf, List.append_assoc]

lemma fieldPathOf_nil (f : String) : fieldPathOf "" f = f := by
  simp [fieldPathOf]

lemma vft_pass (v : Value) (t : FieldType) (fp : String) (r : ValidationResult)
    (h : isinst v t = true) : validate_field_type v t fp r = (true, r) := by
  simp [validate_field_type, h]

lemma vft_fail (v : Value) (t : FieldType) (fp : String) (r : ValidationResult)
    (h : isinst v t = false) :
    validate_field_type v t fp r
      = (false, r.add_error fp ("Expected " ++ t.pyName ++ ", got " ++ v.typeName)) := by
  simp [validate_field_type, h]

lemma vft_blank_errors (v : Value) (t : FieldType) (fp : String) :
    ((validate_field_type v t fp blankResult).2).errors
      = if isinst v t then []
        else [⟨fp, "Expected " ++ t.pyName ++ ", got " ++ v.typeName, "error"⟩] := by
  cases h : isinst v t <;>
    simp [validate_field_type, h, ValidationResult.add_error, blankResult]

lemma vc_nonnum (v : Value) (c : Constraint) (fp : String) (r : ValidationResult)
    (h : v.toNum? = none) : validate_constraints v c fp r = r := by
  unfold validate_constraints
  simp [h]

lemma vc_blank_errors (v : Value) (c : Constraint) (fp : String) (q : ℚ)
    (hq : v.toNum? = some q) :
    (validate_constraints v c fp blankResult).errors
      = (match c.minB with
         | some m =>
             if q < numVal m then
               [⟨fp, "Value " ++ v.pyStr ++ " is below minimum " ++ m.pyStr, "error"⟩]
             else []
         | none => [])
        ++ (match c.maxB with
            | some mx =>
                if q > numVal mx then
                  [⟨fp, "Value " ++ v.pyStr ++ " exceeds maximum " ++ mx.pyStr, "error"⟩]
                else []
            | none => []) := by
  unfold validate_constraints
  simp only [hq]
  cases hm : c.minB <;> cases hx : c.maxB <;> simp only [] <;>
    (try split_ifs) <;> simp [ValidationResult.add_error, blankResult]

lemma vc_inRange (v : Value) (c : Constraint) (fp : String) (r : ValidationResult)
    (h : inRangeB v c = true) : validate_constraints v c fp r = r := by
  unfold validate_constraints
  cases hv : v.toNum? with
  | none => simp
  | some q =>
      unfold inRangeB at h
      rw [hv] at h
      cases hm : c.minB <;> cases hx : c.maxB <;> rw [hm, hx] at h <;>
        simp only [Bool.and_eq_true, decide_eq_true_eq, true_and, and_true] at h
      case some.none.some => simp [if_neg (not_lt.2 h)]
      case some.some.none => simp [if_neg (not_lt.2 h)]
      case some.some.some => simp [if_neg (not_lt.2 h.1), if_neg (not_lt.2 h.2)]

lemma vc_blank_path (v : Value) (c : Constraint) (fp : String) :
    ∀ e ∈ (validate_constraints v c fp blankResult).errors, e.path = fp := by
  intro e he
  cases hv : v.toNum? with
  | none => rw [vc_nonnum v c fp _ hv] at he; simp [blankResult] at he
  | some q =>
      rw [vc_blank_errors v c fp q hv] at he
      rcases List.mem_append.1 he with h1 | h1
      · cases hm : c.minB <;> rw [hm] at h1 <;> simp only [] at h1
        · simp at h1
        · split_ifs at h1 <;> simp_all
      · cases hx : c.maxB <;> rw [hx] at h1 <;> simp only [] at h1
        · simp at h1
        · split_ifs at h1 <;> simp_all

lemma curvePointCheck_blank_path (pp : String) (p : Value) :
    ∀ e ∈ (curvePointCheck pp p blankResult).errors,
      e.path = pp ∨ e.path = pp ++ "[0]" ∨ e.path = pp ++ "[1]" := by
  intro e he
  unfold curvePointCheck at he
  cases p <;>
    try (simp [ValidationResult.add_error, blankResult] at he; simp [he])
  case vlist l =>
      rcases l with _ | ⟨xv, _ | ⟨yv, _ | ⟨z, rest⟩⟩⟩ <;>
        try (simp [ValidationResult.add_error, blankResult] at he; simp [he])
      cases hx : isinst xv .tyNum <;> cases hy : isinst yv .tyNum <;>
        simp [hx, hy, ValidationResult.add_error, blankResult] at he <;>
        rcases he with rfl | rfl <;> simp

lemma curveLoop_blank_path (fp : String) (pts : List Value) :
    ∀ (i : Nat) (e : ValidationError),
      e ∈ (curvePointsLoop fp i pts blankResult).errors →
      ∃ (j : Nat) (suf : String), (suf = "" ∨ suf = "[0]" ∨ suf = "[1]")
        ∧ e.path = fp ++ "[" ++ toString j ++ "]" ++ suf := by
  induction pts with
  | nil => intro i e he; simp [curvePointsLoop, blankResult] at he
  | cons p rest ih =>
      intro i e he
      have hstep : curvePointsLoop fp i (p :: rest) blankResult
          = curvePointsLoop fp (i + 1) rest
              (curvePointCheck (fp ++ "[" ++ toString i ++ "]") p blankResult) := rfl
      rw [hstep] at he
      have happ : curvePointsLoop fp (i + 1) rest
            (curvePointCheck (fp ++ "[" ++ toString i ++ "]") p blankResult)
          = { curvePointCheck (fp ++ "[" ++ toString i ++ "]") p blankResult with
              errors := (curvePointCheck (fp ++ "[" ++ toString i ++ "]") p blankResult).errors
                ++ (curvePointsLoop fp (i + 1) rest blankResult).errors,
              warnings := (curvePointCheck (fp ++ "[" ++ toString i ++ "]") p blankResult).warnings
                ++ (curvePointsLoop fp (i + 1) rest blankResult).warnings } :=
        appends_curvePointsLoop fp rest (i + 1) _
      rw [happ] at he
      simp only [List.mem_append] at he
      rcases he with he | he
      · rcases curvePointCheck_blank_path _ p e he with h1 | h1 | h1
        · exact ⟨i, "", Or.inl rfl, by simpa using h1⟩
        · exact ⟨i, "[0]", Or.inr (Or.inl rfl), h1⟩
        · exact ⟨i, "[1]", Or.inr (Or.inr rfl), h1⟩
      · exact ih (i + 1) e he

lemma appends_errors {f : ValidationResult → ValidationResult} (hf : Appends f)
    (r : ValidationResult) :
    (f r).errors = r.errors ++ (f blankResult).errors := by
  have h : f r = { r with errors := r.errors ++ (f blankResult).errors,
                          warnings := r.warnings ++ (f blankResult).warnings } := hf r
  rw [h]

lemma vc_errors_append (v : Value) (c : Constraint) (fp : String)
    (r : ValidationResult) :
    (validate_constraints v c fp r).errors
      = r.errors ++ (validate_constraints v c fp blankResult).errors :=
  appends_errors (appends_vc v c fp) r

lemma curve_errors_append (curve : Value) (fp : String) (r : ValidationResult) :
    (validate_curve curve fp r).errors
      = r.errors ++ (validate_curve curve fp blankResult).errors :=
  appends_errors (appends_validate_curve curve fp) r

lemma curveLoop_ok (fp : String) (pts : List Value)
    (h : curvePointsOK pts = true) :
    ∀ (i : Nat) (r : ValidationResult), curvePointsLoop fp i pts r = r := by
  induction pts with
  | nil => intro i r; rfl
  | cons p rest ih =>
      intro i r
      unfold curvePointsOK at h
      rw [List.all_cons, Bool.and_eq_true] at h
      obtain ⟨h1, h2⟩ := h
      show curvePointsLoop fp (i + 1) rest
        (curvePointCheck (fp ++ "[" ++ toString i ++ "]") p r) = r
      have hcheck : curvePointCheck (fp ++ "[" ++ toString i ++ "]") p r = r := by
        unfold curvePointCheck
        match p, h1 with
        | .vlist [xv, yv], h1 =>
            rw [Bool.and_eq_true] at h1
            simp [h1.1, h1.2]
      rw [hcheck]
      exact ih h2 (i + 1) r

@[simp] lemma data_lbrack : ("[" : String).data = ['['] := rfl

lemma lbrack_mem_concat (a b suf : String) :
    '[' ∈ (a ++ "[" ++ b ++ suf).data := by
  simp [String.data_append]

lemma reqErrorsOf_missing (data : List (String × Value))
    (cons : List (String × Constraint)) (pp : String) (fld : String × FieldType)
    (hv : data.lookup fld.1 = none) :
    reqErrorsOf data cons pp fld
      = [⟨fieldPathOf pp fld.1,
          "Required field \x27" ++ fld.1 ++ "\x27 is missing", "error"⟩] := by
  unfold reqErrorsOf requiredFieldStep
  simp [hv, ValidationResult.add_error, blankResult]

lemma reqErrorsOf_present (data : List (String × Value))
    (cons : List (String × Constraint)) (pp : String) (fld : String × FieldType)
    (v : Value) (hv : data.lookup fld.1 = some v) :
    reqErrorsOf data cons pp fld
      = ((validate_field_type v fld.2 (fieldPathOf pp fld.1) blankResult).2).errors
        ++ (match cons.lookup fld.1 with
            | some c =>
                (validate_constraints v c (fieldPathOf pp fld.1) blankResult).errors
            | none => []) := by
  unfold reqErrorsOf requiredFieldStep
  simp only [hv]
  cases hc : cons.lookup fld.1 with
  | none => simp
  | some c =>
      simp only []
      rw [vc_errors_append]

lemma reqErrorsOf_path (data : List (String × Value))
    (cons : List (String × Constraint)) (pp : String) (fld : String × FieldType) :
    ∀ e ∈ reqErrorsOf data cons pp fld, e.path = fieldPathOf pp fld.1 := by
  intro e he
  cases hv : data.lookup fld.1 with
  | none =>
      rw [reqErrorsOf_missing data cons pp fld hv] at he
      simp at he; simp [he]
  | some v =>
      rw [reqErrorsOf_present data cons pp fld v hv] at he
      rcases List.mem_append.1 he with h1 | h1
      · rw [vft_blank_errors] at h1
        split_ifs at h1 <;> simp_all
      · cases hc : cons.lookup fld.1 <;> rw [hc] at h1
        · simp at h1
        · exact vc_blank_path v _ _ e h1

lemma optErrorsOf_none (data : List (String × Value))
    (cons : List (String × Constraint)) (pp : String) (fld : String × FieldType)
    (hv : data.lookup fld.1 = none) :
    optErrorsOf data cons pp fld = [] := by
  unfold optErrorsOf optionalFieldStep
  simp [hv, blankResult]

lemma optErrorsOf_vnone (data : List (String × Value))
    (cons : List (String × Constraint)) (pp : String) (fld : String × FieldType)
    (hv : data.lookup fld.1 = some Value.vnone) :
    optErrorsOf data cons pp fld = [] := by
  unfold optErrorsOf optionalFieldStep
  simp [hv, blankResult]

lemma optErrorsOf_present (data : List (String × Value))
    (cons : List (String × Constraint)) (pp : String) (fld : String × FieldType)
    (v : Value) (hv : data.lookup fld.1 = some v) (hnn : v ≠ Value.vnone) :
    optErrorsOf data cons pp fld
      = ((validate_field_type v fld.2 (fieldPathOf pp fld.1) blankResult).2).errors
        ++ (match cons.lookup fld.1 with
            | some c =>
                (validate_constraints v c (fieldPathOf pp fld.1) blankResult).errors
            | none => [])
        ++ (if pyEndsWith fld.1 "_curve" && isinst v .tyList then
              (validate_curve v (fieldPathOf pp fld.1) blankResult).errors
            else []) := by
  unfold optErrorsOf optionalFieldStep
  rw [hv]
  split
  next heq => exact Option.noConfusion heq
  next heq =>
      rw [Option.some_inj] at heq
      exact absurd heq hnn
  next w hne heq =>
      rw [Option.some_inj] at heq
      subst heq
      cases hc : cons.lookup fld.1 <;> simp only [hc] <;>
        cases hcond : (pyEndsWith fld.1 "_curve" && isinst v .tyList) <;>
          simp only [hcond, if_true, if_false, Bool.false_eq_true]
      all_goals try rw [curve_errors_append]
      all_goals try rw [vc_errors_append]
      all_goals simp [List.append_assoc]

lemma optErrorsOf_path (data : List (String × Value))
    (cons : List (String × Constraint)) (pp : String) (fld : String × FieldType) :
    ∀ e ∈ optErrorsOf data cons pp fld,
      e.path = fieldPathOf pp fld.1 ∨ '[' ∈ e.path.data := by
  intro e he
  cases hv : data.lookup fld.1 with
  | none => rw [optErrorsOf_none data cons pp fld hv] at he; simp at he
  | some v =>
      by_cases hnn : v = Value.vnone
      · subst hnn; rw [optErrorsOf_vnone data cons pp fld hv] at he; simp at he
      · rw [optErrorsOf_present data cons pp fld v hv hnn] at he
        rcases List.mem_append.1 he with h1 | h2
        · rcases List.mem_append.1 h1 with h2 | h2
          · rw [vft_blank_errors] at h2
            split_ifs at h2
            · simp at h2
            · left
              simp at h2
              simp [h2]
          · cases hc : cons.lookup fld.1 <;> rw [hc] at h2
            · simp at h2
            · exact Or.inl (vc_blank_path v _ _ e h2)
        · split_ifs at h2 with hcnd
          · right
            rw [Bool.and_eq_true] at hcnd
            obtain ⟨hend, hlist⟩ := hcnd
            cases v with
            | vlist pts =>
                have hloop :
                    validate_curve (Value.vlist pts) (fieldPathOf pp fld.1)
                      blankResult
                    = curvePointsLoop (fieldPathOf pp fld.1) 0 pts blankResult :=
                  rfl
                rw [hloop] at h2
                obtain ⟨j, suf, _, hpath⟩ :=
                  curveLoop_blank_path (fieldPathOf pp fld.1) pts 0 e h2
                rw [hpath]
                simp [String.data_append]
            | vstr s => simp [isinst] at hlist
            | vint n => simp [isinst] at hlist
            | vfloat q => simp [isinst] at hlist
            | vbool b => simp [isinst] at hlist
            | vdict d => simp [isinst] at hlist
            | vnone => simp [isinst] at hlist
          · simp at h2

lemma reqStep_ok (data : List (String × Value))
    (cons : List (String × Constraint)) (pp : String) (r : ValidationResult)
    (fld : String × FieldType) (v : Value)
    (hv : data.lookup fld.1 = some v) (ht : isinst v fld.2 = true)
    (hr : inRangeB v ((cons.lookup fld.1).getD ⟨none, none⟩) = true) :
    requiredFieldStep data cons pp r fld = r := by
  unfold requiredFieldStep
  rw [hv]
  simp only [vft_pass _ _ _ _ ht]
  cases hc : cons.lookup fld.1 with
  | none => rfl
  | some c =>
      rw [hc] at hr
      simp only [Option.getD_some] at hr
      exact vc_inRange v c _ r hr

lemma optStep_ok (data : List (String × Value))
    (cons : List (String × Constraint)) (pp : String) (r : ValidationResult)
    (fld : String × FieldType) (v : Value)
    (hv : data.lookup fld.1 = some v) (hnn : v ≠ Value.vnone)
    (ht : isinst v fld.2 = true)
    (hr : inRangeB v ((cons.lookup fld.1).getD ⟨none, none⟩) = true)
    (hcv : ∀ pts, v = Value.vlist pts → pyEndsWith fld.1 "_curve" = true →
      curvePointsOK pts = true) :
    optionalFieldStep data cons pp r fld = r := by
  unfold optionalFieldStep
  rw [hv]
  split
  next heq => exact Option.noConfusion heq
  next heq => rfl
  next w hne heq =>
      rw [Option.some_inj] at heq
      subst heq
      simp only [vft_pass _ _ _ _ ht]
      have hmid :
          (match cons.lookup fld.1 with
           | some c => validate_constraints v c (fieldPathOf pp fld.1) r
           | none => r) = r := by
        cases hc : cons.lookup fld.1 with
        | none => rfl
        | some c =>
            rw [hc] at hr
            simp only [Option.getD_some] at hr
            exact vc_inRange v c _ r hr
      rw [hmid]
      cases hcond : (pyEndsWith fld.1 "_curve" && isinst v .tyList) with
      | false => simp [hcond]
      | true =>
          simp only [hcond, if_true]
          rw [Bool.and_eq_true] at hcond
          obtain ⟨hend, hlist⟩ := hcond
          cases v with
          | vlist pts =>
              show curvePointsLoop (fieldPathOf pp fld.1) 0 pts r = r
              exact curveLoop_ok _ pts (hcv pts rfl hend) 0 r
          | vstr s => simp [isinst] at hlist
          | vint n => simp [isinst] at hlist
          | vfloat q => simp [isinst] at hlist
          | vbool b => simp [isinst] at hlist
          | vdict d => simp [isinst] at hlist
          | vnone => simp [isinst] at hlist

lemma filter_path_eq_nil (L : List ValidationError) (tgt : String)
    (h : ∀ e ∈ L, e.path ≠ tgt) :
    L.filter (fun e => e.path == tgt) = [] := by
  rw [List.filter_eq_nil_iff]
  intro e he
  simpa using h e he

lemma filter_path_eq_self (L : List ValidationError) (tgt : String)
    (h : ∀ e ∈ L, e.path = tgt) :
    L.filter (fun e => e.path == tgt) = L := by
  rw [List.filter_eq_self]
  intro e he
  simpa using h e he

lemma flatten_filter_nil {p : ValidationError → Bool}
    (L : List (List ValidationError)) (h : ∀ l ∈ L, l.filter p = []) :
    L.flatten.filter p = [] := by
  induction L with
  | nil => rfl
  | cons a t ih =>
      rw [List.flatten_cons, List.filter_append, h a (by simp),
        ih (fun l hl => h l (by simp [hl]))]
      rfl

lemma unkWarningsOf_known (known : List String) (pp : String)
    (kv : String × Value) (h : kv.1 ∈ known) :
    unkWarningsOf known pp kv = [] := by
  unfold unkWarningsOf unknownFieldStep
  simp [h, blankResult]

lemma unkWarningsOf_unknown (known : List String) (pp : String)
    (kv : String × Value) (h : kv.1 ∉ known) :
    unkWarningsOf known pp kv
      = [⟨fieldPathOf pp kv.1, "Unknown field \x27" ++ kv.1 ++ "\x27",
          "warning"⟩] := by
  unfold unkWarningsOf unknownFieldStep
  simp [h, ValidationResult.add_warning, blankResult]


lemma lookup_mem {α β : Type} [DecidableEq α] (l : List (α × β)) (k : α) (v : β)
    (h : l.lookup k = some v) : (k, v) ∈ l := by
  induction l with
  | nil => simp [List.lookup] at h
  | cons p t ih =>
      rcases p with ⟨a, b⟩
      rw [List.lookup] at h
      by_cases hk : k = a
      · subst hk
        simp at h
        subst h
        exact List.mem_cons_self _ _
      · have hbeq : (k == a) = false := by simp [hk]
        rw [hbeq] at h
        simp only [] at h
        exact List.mem_cons_of_mem _ (ih h)

lemma flatten_nil_of (L : List (List ValidationError))
    (h : ∀ l ∈ L, l = []) : L.flatten = [] := by
  induction L with
  | nil => rfl
  | cons a t ih =>
      rw [List.flatten_cons, h a (by simp), ih (fun l hl => h l (by simp [hl]))]
      rfl

lemma consE_len_le_one (v : Value) (c : Constraint) (fp : String)
    (hcs : consSoundB c = true) :
    ((validate_constraints v c fp blankResult).errors).length ≤ 1 := by
  cases hv : v.toNum? with
  | none => rw [vc_nonnum _ _ _ _ hv]; simp [blankResult]
  | some q =>
      rw [vc_blank_errors v c fp q hv]
      unfold consSoundB at hcs
      cases hm : c.minB <;> cases hx : c.maxB <;> rw [hm, hx] at hcs <;>
        simp only [decide_eq_true_eq] at hcs <;>
        simp only [] <;> (try split_ifs) <;> simp_all
      all_goals linarith

lemma consE_ne_nil_numeric (v : Value) (c : Constraint) (fp : String)
    (h : (validate_constraints v c fp blankResult).errors ≠ []) :
    (v.toNum?).isSome = true := by
  cases hv : v.toNum? with
  | none =>
      refine absurd ?_ h
      rw [vc_nonnum _ _ _ _ hv]
      rfl
  | some q => rfl

lemma opt_flatten_filter_nil (data : List (String × Value)) (ct : ConfigType)
    (fname : String)
    (hopt : fname ∉ (schemaOf ct).optional_fields.map Prod.fst)
    (hbr : '[' ∉ fname.data) :
    ((((schemaOf ct).optional_fields.map
        (fun fld => optErrorsOf data (schemaOf ct).constraints "" fld)).flatten).filter
      (fun e => e.path == fname)) = [] := by
  apply flatten_filter_nil
  intro l hl
  obtain ⟨fld, hfld, rfl⟩ := List.mem_map.1 hl
  apply filter_path_eq_nil
  intro e he
  rcases optErrorsOf_path data _ "" fld e he with h | h
  · rw [fieldPathOf_nil] at h
    intro hcon
    have hfn : fld.1 = fname := by rw [← h, hcon]
    exact hopt (hfn ▸ List.mem_map.2 ⟨fld, hfld, rfl⟩)
  · intro hcon
    rw [hcon] at h
    exact hbr h

lemma req_flatten_filter_nil (data : List (String × Value)) (ct : ConfigType)
    (fname : String)
    (hreq : fname ∉ (schemaOf ct).required_fields.map Prod.fst) :
    ((((schemaOf ct).required_fields.map
        (fun fld => reqErrorsOf data (schemaOf ct).constraints "" fld)).flatten).filter
      (fun e => e.path == fname)) = [] := by
  apply flatten_filter_nil
  intro l hl
  obtain ⟨fld, hfld, rfl⟩ := List.mem_map.1 hl
  apply filter_path_eq_nil
  intro e he
  have h := reqErrorsOf_path data _ "" fld e he
  rw [fieldPathOf_nil] at h
  intro hcon
  have hfn : fld.1 = fname := by rw [← h, hcon]
  exact hreq (hfn ▸ List.mem_map.2 ⟨fld, hfld, rfl⟩)

lemma C2core (data : List (String × Value)) (ct : ConfigType)
    (fname : String) (ftype : FieldType)
    (hmem : (fname, ftype) ∈ (schemaOf ct).required_fields)
    (hnd : ((schemaOf ct).required_fields.map Prod.fst).Nodup)
    (hopt : fname ∉ (schemaOf ct).optional_fields.map Prod.fst)
    (hbr : '[' ∉ fname.data) :
    ((validate_config data ct blankResult "").errors.filter
        (fun e => e.path == fname))
      = reqErrorsOf data (schemaOf ct).constraints "" (fname, ftype) := by
  rw [validate_config_blank_errors, List.filter_append,
    opt_flatten_filter_nil data ct fname hopt hbr, List.append_nil]
  obtain ⟨l1, l2, hsplit⟩ := List.append_of_mem hmem
  rw [hsplit, List.map_append, List.map_cons, List.flatten_append,
    List.flatten_cons, List.filter_append, List.filter_append]
  rw [hsplit, List.map_append, List.map_cons, List.nodup_append] at hnd
  obtain ⟨hnd1, hnd2, hdisj⟩ := hnd
  rw [List.nodup_cons] at hnd2
  have hl1 : ∀ fld ∈ l1, fld.1 ≠ fname := by
    intro fld hfld heq
    exact hdisj (heq ▸ List.mem_map.2 ⟨fld, hfld, rfl⟩)
      (List.mem_cons_self _ _)
  have hl2 : ∀ fld ∈ l2, fld.1 ≠ fname := by
    intro fld hfld heq
    exact hnd2.1 (heq ▸ List.mem_map.2 ⟨fld, hfld, rfl⟩)
  have hside : ∀ (ll : List (String × FieldType)),
      (∀ fld ∈ ll, fld.1 ≠ fname) →
      (((ll.map (fun fld =>
          reqErrorsOf data (schemaOf ct).constraints "" fld)).flatten).filter
        (fun e => e.path == fname)) = [] := by
    intro ll hll
    apply flatten_filter_nil
    intro l hl
    obtain ⟨fld, hfld, rfl⟩ := List.mem_map.1 hl
    apply filter_path_eq_nil
    intro e he
    have h := reqErrorsOf_path data _ "" fld e he
    rw [fieldPathOf_nil] at h
    rw [h]
    exact hll fld hfld
  rw [hside l1 hl1, hside l2 hl2,
    filter_path_eq_self _ _ (fun e he => by
      have h := reqErrorsOf_path data _ "" (fname, ftype) e he
      rwa [fieldPathOf_nil] at h)]
  simp


/-- C9: validation is deterministic and pure.  `validate_config` only
appends to the result it is handed: the previously accumulated errors and
warnings are preserved as a prefix, the fields `file_path` and
`config_type` are untouched, and the appended contribution is the run from
a fresh result — a pure function of the document, the kind and the path
prefix alone.  Hence validating the same document twice (from equal
states) yields identical ordered error and warning lists, and neither the
document nor the schema registry (immutable values of the embedding) is
modified. -/
theorem C9_validation_pure_append (data : List (String × Value))
    (ct : ConfigType) (pp : String) (r : ValidationResult) :
    validate_config data ct r pp
      = { r with
          errors := r.errors ++ (validate_config data ct blankResult pp).errors,
          warnings :=
            r.warnings ++ (validate_config data ct blankResult pp).warnings } :=
  appends_validate_config data ct pp r

/-- C1: the claim that era sub-documents are validated recursively is
contradicted by the code.  The registry itself declares nested schemas for
`archetypes` and `upgrades` (first conjunct), and the archetype entry
`{"id": 5}` is invalid as a `UnitArchetype` (second conjunct: wrong type
for `id`, missing `base_health` and `base_move_speed`), yet validating the
era document that contains exactly this entry produces no error and no
warning at all (third and fourth conjuncts): `validate_config` never reads
`nested_schemas` and never recurses. -/
theorem C1_nested_validation_missing :
    (schemaOf .ERA_CONFIG).nested_schemas
        = [("archetypes", "UnitArchetype"), ("upgrades", "UpgradeDefinition")]
    ∧ (validate_config [("id", Value.vint 5)] .UNIT_ARCHETYPE blankResult
        "").errors ≠ []
    ∧ validate_config
        [("name", Value.vstr "Ancient"),
         ("archetypes", Value.vlist [Value.vdict [("id", Value.vint 5)]])]
        .ERA_CONFIG blankResult "" = blankResult
    ∧ validate_parsed "era.yaml"
        (Value.vdict [("name", Value.vstr "Ancient"),
          ("archetypes", Value.vlist [Value.vdict [("id", Value.vint 5)]])])
        = .ok ⟨"era.yaml", some .ERA_CONFIG, [], []⟩ := by
  exact ⟨rfl, by decide, by decide, by decide⟩

/-- C10: a present but non-string `type` discriminator makes
`detect_config_type` raise (`type_str.lower()` on an `int` or `list`), and
the exception propagates out of `validate_file` uncaught — the model
returns an `Except.error`, never a result carrying a root-level error.
The third conjunct shows this happens even for a document whose other
fields would be structurally detectable. -/
theorem C10_nonstring_discriminator_raises :
    detect_config_type [("type", Value.vint 5)]
        = .error (.attributeError "int object has no attribute lower")
    ∧ detect_config_type [("name", Value.vstr "x"), ("type", Value.vlist [])]
        = .error (.attributeError "list object has no attribute lower")
    ∧ validate_parsed "cfg.json"
        (Value.vdict [("type", Value.vint 5), ("name", Value.vstr "x"),
          ("shots_per_burst", Value.vint 1)])
        = .error (.attributeError "int object has no attribute lower") := by
  exact ⟨by decide, by decide, by decide⟩

/-- C8: booleans pass the type check for `int` and for the `(int, float)`
union (Python treats `bool` as a numeric subtype), and such booleans are
then subject to numeric constraints: `False` (numerically 0) below the
`shots_per_burst` minimum of 1 yields the below-minimum error, while a
whole `WeaponStats` document with `shots_per_burst: True` (numerically 1)
validates with no error. -/
theorem C8_bool_accepted_as_numeric :
    (∀ (b : Bool) (fp : String) (r : ValidationResult),
        validate_field_type (Value.vbool b) .tyInt fp r = (true, r))
    ∧ (∀ (b : Bool) (fp : String) (r : ValidationResult),
        validate_field_type (Value.vbool b) .tyNum fp r = (true, r))
    ∧ (∀ b : Bool, (Value.vbool b).toNum? = some (if b then 1 else 0))
    ∧ (validate_constraints (Value.vbool false)
          ⟨some (Value.vint 1), some (Value.vint 100)⟩ "shots_per_burst"
          blankResult).errors
        = [⟨"shots_per_burst", "Value False is below minimum 1", "error"⟩]
    ∧ (validate_config
        [("name", Value.vstr "s"), ("shots_per_burst", Value.vbool true),
         ("fire_rate", Value.vfloat 1),
         ("base_hit_chance", Value.vfloat (mkRat 4 5)),
         ("base_damage", Value.vint 25)]
        .WEAPON_STATS blankResult "").errors = [] := by
  refine ⟨?_, ?_, ?_, by decide, by decide⟩
  · intro b fp r; cases b <;> exact vft_pass _ _ _ _ rfl
  · intro b fp r; cases b <;> exact vft_pass _ _ _ _ rfl
  · intro b; rfl

/-- C4: for a constraint with both inclusive bounds declared (and
consistent, as in every registry entry): a numeric value strictly below
the minimum yields exactly the one below-minimum error, strictly above the
maximum exactly the one exceeds-maximum error, and a value equal to either
bound yields no error; non-numeric values are never constraint-checked
(the result is returned untouched). -/
theorem C4_constraints_inclusive (v : Value) (c : Constraint) (fp : String)
    (m mx : Value) (q : ℚ)
    (hm : c.minB = some m) (hx : c.maxB = some mx)
    (hmm : numVal m ≤ numVal mx) :
    (∀ (w : Value) (r : ValidationResult), w.toNum? = none →
        validate_constraints w c fp r = r)
    ∧ (v.toNum? = some q →
        (q < numVal m →
            (validate_constraints v c fp blankResult).errors
              = [⟨fp, "Value " ++ v.pyStr ++ " is below minimum " ++ m.pyStr,
                  "error"⟩])
        ∧ (q > numVal mx →
            (validate_constraints v c fp blankResult).errors
              = [⟨fp, "Value " ++ v.pyStr ++ " exceeds maximum " ++ mx.pyStr,
                  "error"⟩])
        ∧ ((q = numVal m ∨ q = numVal mx) →
            (validate_constraints v c fp blankResult).errors = [])) := by
  refine ⟨fun w r hw => vc_nonnum w c fp r hw, fun hq => ⟨?_, ?_, ?_⟩⟩
  · intro hlt
    rw [vc_blank_errors v c fp q hq]
    simp only [hm, hx]
    rw [if_pos hlt, if_neg (not_lt.2 (le_of_lt (lt_of_lt_of_le hlt hmm)))]
    simp
  · intro hgt
    rw [vc_blank_errors v c fp q hq]
    simp only [hm, hx]
    rw [if_neg (not_lt.2 (le_of_lt (lt_of_le_of_lt hmm hgt))), if_pos hgt]
    simp
  · intro heq
    rw [vc_blank_errors v c fp q hq]
    simp only [hm, hx]
    rcases heq with rfl | rfl
    · rw [if_neg (lt_irrefl _), if_neg (not_lt.2 hmm)]
      simp
    · rw [if_neg (not_lt.2 hmm), if_neg (lt_irrefl _)]
      simp

/-- Witness for C4 at a concrete input: the archetype `base_health`
constraint `[0, 10000]` applied to the value `-100`. -/
theorem C4_witness :
    (validate_constraints (Value.vint (-100))
        ⟨some (Value.vint 0), some (Value.vint 10000)⟩ "base_health"
        blankResult).errors
      = [⟨"base_health", "Value -100 is below minimum 0", "error"⟩] :=
  ((C4_constraints_inclusive (Value.vint (-100))
      ⟨some (Value.vint 0), some (Value.vint 10000)⟩ "base_health"
      (Value.vint 0) (Value.vint 10000) (((-100 : ℤ) : ℚ)) rfl rfl
      (by decide)).2 rfl).1 (by decide)

lemma detect_heuristics (data : List (String × Value))
    (hty : data.lookup "type" = none
      ∨ ∃ s, data.lookup "type" = some (Value.vstr s)
          ∧ ∀ ct : ConfigType, pyLower ct.value ≠ pyLower s) :
    detect_config_type data = .ok
      (if (data.lookup "archetypes").isSome then some .ERA_CONFIG
       else if ((data.lookup "shots_per_burst").isSome
           || (data.lookup "fire_rate").isSome) then some .WEAPON_STATS
       else if ((data.lookup "hit_chance_multiplier").isSome
           || (data.lookup "damage_multiplier").isSome) then
         some .UPGRADE_DEFINITION
       else if ((data.lookup "base_health").isSome
           || (data.lookup "base_move_speed").isSome) then
         some .UNIT_ARCHETYPE
       else none) := by
  unfold detect_config_type
  rcases hty with hty | ⟨s, hty, hmatch⟩
  · rw [hty]
  · rw [hty]
    have hf : ConfigType.members.find?
        (fun ct => pyLower ct.value == pyLower s) = none :=
      List.find?_eq_none.2 (fun ct _ => by simp [hmatch ct])
    simp only [hf]

/-- C6: kind detection priority.  A string discriminator matching a kind
case-insensitively wins regardless of all other fields; otherwise — the
`type` key absent, or present with a string value matching no kind's name
— the structural heuristics run in the fixed order era, weapon, upgrade,
archetype; with none matching, detection returns `none` and
`validate_file` reports it as a single root-level error.  The concrete
cases of the claim are included, plus a present-but-non-matching
discriminator falling through to the weapon heuristic. -/
theorem C6_kind_detection_priority :
    (∀ (data : List (String × Value)) (s : String) (ct : ConfigType),
        data.lookup "type" = some (Value.vstr s) →
        pyLower ct.value = pyLower s →
        detect_config_type data = .ok (some ct))
    ∧ (∀ data : List (String × Value),
        (data.lookup "type" = none
          ∨ ∃ s, data.lookup "type" = some (Value.vstr s)
              ∧ ∀ ct : ConfigType, pyLower ct.value ≠ pyLower s) →
        (data.lookup "archetypes").isSome = true →
        detect_config_type data = .ok (some .ERA_CONFIG))
    ∧ (∀ data : List (String × Value),
        (data.lookup "type" = none
          ∨ ∃ s, data.lookup "type" = some (Value.vstr s)
              ∧ ∀ ct : ConfigType, pyLower ct.value ≠ pyLower s) →
        data.lookup "archetypes" = none →
        ((data.lookup "shots_per_burst").isSome
          || (data.lookup "fire_rate").isSome) = true →
        detect_config_type data = .ok (some .WEAPON_STATS))
    ∧ (∀ data : List (String × Value),
        (data.lookup "type" = none
          ∨ ∃ s, data.lookup "type" = some (Value.vstr s)
              ∧ ∀ ct : ConfigType, pyLower ct.value ≠ pyLower s) →
        data.lookup "archetypes" = none →
        data.lookup "shots_per_burst" = none →
        data.lookup "fire_rate" = none →
        ((data.lookup "hit_chance_multiplier").isSome
          || (data.lookup "damage_multiplier").isSome) = true →
        detect_config_type data = .ok (some .UPGRADE_DEFINITION))
    ∧ (∀ data : List (String × Value),
        (data.lookup "type" = none
          ∨ ∃ s, data.lookup "type" = some (Value.vstr s)
              ∧ ∀ ct : ConfigType, pyLower ct.value ≠ pyLower s) →
        data.lookup "archetypes" = none →
        data.lookup "shots_per_burst" = none →
        data.lookup "fire_rate" = none →
        data.lookup "hit_chance_multiplier" = none →
        data.lookup "damage_multiplier" = none →
        ((data.lookup "base_health").isSome
          || (data.lookup "base_move_speed").isSome) = true →
        detect_config_type data = .ok (some .UNIT_ARCHETYPE))
    ∧ (∀ data : List (String × Value),
        (data.lookup "type" = none
          ∨ ∃ s, data.lookup "type" = some (Value.vstr s)
              ∧ ∀ ct : ConfigType, pyLower ct.value ≠ pyLower s) →
        data.lookup "archetypes" = none →
        data.lookup "shots_per_burst" = none →
        data.lookup "fire_rate" = none →
        data.lookup "hit_chance_multiplier" = none →
        data.lookup "damage_multiplier" = none →
        data.lookup "base_health" = none →
        data.lookup "base_move_speed" = none →
        detect_config_type data = .ok none)
    ∧ detect_config_type [("archetypes", Value.vlist [])]
        = .ok (some .ERA_CONFIG)
    ∧ detect_config_type [("shots_per_burst", Value.vint 1)]
        = .ok (some .WEAPON_STATS)
    ∧ detect_config_type
        [("type", Value.vstr "Foo"), ("shots_per_burst", Value.vint 1)]
        = .ok (some .WEAPON_STATS)
    ∧ detect_config_type [("unknown_field", Value.vstr "x")] = .ok none
    ∧ validate_parsed "era.yaml"
        (Value.vdict [("unknown_field", Value.vstr "x")])
        = .ok ⟨"era.yaml", none,
            [⟨"root",
              "Unable to detect config type. Add \x27type\x27 field or use recognizable field names.",
              "error"⟩], []⟩ := by
  refine ⟨?_, ?_, ?_, ?_, ?_, ?_, by decide, by decide, by decide, by decide,
    by decide⟩
  · intro data s ct hty h
    unfold detect_config_type
    rw [hty]
    simp only [← h]
    cases ct <;> rfl
  · intro data hty ha
    rw [detect_heuristics data hty]
    simp [ha]
  · intro data hty ha hw
    rw [detect_heuristics data hty]
    simp [ha, hw]
  · intro data hty ha hs hf hu
    rw [detect_heuristics data hty]
    simp [ha, hs, hf, hu]
  · intro data hty ha hs hf hh hd hb
    rw [detect_heuristics data hty]
    simp [ha, hs, hf, hh, hd, hb]
  · intro data hty ha hs hf hh hd hb hm
    rw [detect_heuristics data hty]
    simp [ha, hs, hf, hh, hd, hb, hm]

/-- Witness for C6 at concrete inputs: the discriminator clause at a
lower-case spelling; the weapon heuristic clause with no `type` key; and
the weapon heuristic clause reached through a present but non-matching
string discriminator. -/
theorem C6_witness :
    detect_config_type [("type", Value.vstr "unitarchetype"),
        ("archetypes", Value.vlist [])]
      = .ok (some .UNIT_ARCHETYPE)
    ∧ detect_config_type [("fire_rate", Value.vfloat 1)]
      = .ok (some .WEAPON_STATS)
    ∧ detect_config_type [("type", Value.vstr "Foo"),
        ("fire_rate", Value.vfloat 1)]
      = .ok (some .WEAPON_STATS) :=
  ⟨C6_kind_detection_priority.1 _ "unitarchetype" .UNIT_ARCHETYPE rfl rfl,
   C6_kind_detection_priority.2.2.1 _ (Or.inl rfl) rfl rfl,
   C6_kind_detection_priority.2.2.1 _
     (Or.inr ⟨"Foo", rfl, by intro ct; cases ct <;> decide⟩) rfl rfl⟩


/-- C7: curve fields.  The good curve `[[0,1.0],[2,1.0],[3,0.5]]` yields no
errors; every error produced by curve validation of a list value sits at an
indexed sub-path `fp[j]`, `fp[j][0]` or `fp[j][1]`; and the `WeaponStats`
document of the claim with `range_curve [[0,1.0],[1,"bad"]]` is invalid
with exactly one error, at `range_curve[1][1]`, citing that the Y value
must be numeric. -/
theorem C7_curve_validation :
    (validate_curve (Value.vlist
        [Value.vlist [Value.vint 0, Value.vfloat 1],
         Value.vlist [Value.vint 2, Value.vfloat 1],
         Value.vlist [Value.vint 3, Value.vfloat (mkRat 1 2)]])
      "range_curve" blankResult).errors = []
    ∧ (∀ (fp : String) (pts : List Value) (e : ValidationError),
        e ∈ (validate_curve (Value.vlist pts) fp blankResult).errors →
        ∃ (j : Nat) (suf : String), (suf = "" ∨ suf = "[0]" ∨ suf = "[1]")
          ∧ e.path = fp ++ "[" ++ toString j ++ "]" ++ suf)
    ∧ validate_parsed "weapon.json"
        (Value.vdict [("type", Value.vstr "WeaponStats"),
          ("name", Value.vstr "s"), ("shots_per_burst", Value.vint 1),
          ("fire_rate", Value.vfloat 1),
          ("base_hit_chance", Value.vfloat (mkRat 4 5)),
          ("base_damage", Value.vint 25),
          ("range_curve", Value.vlist
            [Value.vlist [Value.vint 0, Value.vfloat 1],
             Value.vlist [Value.vint 1, Value.vstr "bad"]])])
      = .ok ⟨"weapon.json", some .WEAPON_STATS,
          [⟨"range_curve[1][1]", "Y value must be numeric, got str",
            "error"⟩], []⟩
    ∧ (validate_config [("type", Value.vstr "WeaponStats"),
          ("name", Value.vstr "s"), ("shots_per_burst", Value.vint 1),
          ("fire_rate", Value.vfloat 1),
          ("base_hit_chance", Value.vfloat (mkRat 4 5)),
          ("base_damage", Value.vint 25),
          ("range_curve", Value.vlist
            [Value.vlist [Value.vint 0, Value.vfloat 1],
             Value.vlist [Value.vint 1, Value.vstr "bad"]])]
        .WEAPON_STATS blankResult "").is_valid = false := by
  refine ⟨by decide, ?_, by decide, by decide⟩
  intro fp pts e he
  exact curveLoop_blank_path fp pts 0 e he

/-- Witness for C7's sub-path clause at a concrete input: the malformed
one-point curve `[3]` produces its error at the indexed sub-path `c[0]`. -/
theorem C7_witness :
    ∃ (j : Nat) (suf : String), (suf = "" ∨ suf = "[0]" ∨ suf = "[1]")
      ∧ (ValidationError.mk "c[0]" "Each curve point must be [x, y]"
          "error").path = "c" ++ "[" ++ toString j ++ "]" ++ suf :=
  C7_curve_validation.2.1 "c" [Value.vint 3]
    ⟨"c[0]", "Each curve point must be [x, y]", "error"⟩ (by decide)

/-- C5: a document field that is neither required, nor optional, nor the
reserved discriminator `type` of the detected kind produces exactly one
warning (at the field's path) and never an error, and a result is valid
iff its error list is empty, so such warnings alone leave `is_valid` true.
The hypothesis `'[' ∉ fname.data` rules out the path-aliasing artifact of
identifying "an error for that field" with "an error at that path"
(indexed curve sub-paths all contain a bracket, field names never do). -/
theorem C5_unknown_field_single_warning (data : List (String × Value))
    (ct : ConfigType) (fname : String)
    (hnd : (data.map Prod.fst).Nodup)
    (hmem : fname ∈ data.map Prod.fst)
    (hunk : fname ∉ knownFieldsOf ct)
    (hbr : '[' ∉ fname.data) :
    ((validate_config data ct blankResult "").warnings.filter
        (fun e => e.path == fname))
      = [⟨fname, "Unknown field \x27" ++ fname ++ "\x27", "warning"⟩]
    ∧ ((validate_config data ct blankResult "").errors.filter
        (fun e => e.path == fname)) = []
    ∧ (∀ res : ValidationResult, res.is_valid = true ↔ res.errors = []) := by
  refine ⟨?_, ?_, is_valid_iff⟩
  · rw [validate_config_blank_warnings]
    obtain ⟨kv, hkv, hfst⟩ := List.mem_map.1 hmem
    obtain ⟨l1, l2, hsplit⟩ := List.append_of_mem hkv
    subst hsplit
    rw [List.map_append, List.map_cons, List.flatten_append, List.flatten_cons,
      List.filter_append, List.filter_append]
    rw [List.map_append, List.map_cons, List.nodup_append] at hnd
    obtain ⟨hnd1, hnd2, hdisj⟩ := hnd
    rw [List.nodup_cons] at hnd2
    have hmid : unkWarningsOf (knownFieldsOf ct) "" kv
        = [⟨fname, "Unknown field \x27" ++ fname ++ "\x27", "warning"⟩] := by
      rw [unkWarningsOf_unknown _ _ _ (by rw [hfst]; exact hunk),
        fieldPathOf_nil, hfst]
    have hside : ∀ (ll : List (String × Value)),
        (∀ kv2 ∈ ll, kv2.1 ≠ fname) →
        ((ll.map (fun kv2 => unkWarningsOf (knownFieldsOf ct) "" kv2)).flatten).filter
          (fun e => e.path == fname) = [] := by
      intro ll hll
      apply flatten_filter_nil
      intro l hl
      obtain ⟨kv2, hkv2, rfl⟩ := List.mem_map.1 hl
      by_cases hk : kv2.1 ∈ knownFieldsOf ct
      · rw [unkWarningsOf_known _ _ _ hk]
        rfl
      · rw [unkWarningsOf_unknown _ _ _ hk]
        apply filter_path_eq_nil
        intro e he
        rw [List.mem_singleton] at he
        subst he
        simp only [fieldPathOf_nil]
        exact hll kv2 hkv2
    have hl1 : ∀ kv2 ∈ l1, kv2.1 ≠ fname := by
      intro kv2 h2 heq
      have hm1 : fname ∈ List.map Prod.fst l1 := by
        rw [← heq]
        exact List.mem_map.2 ⟨kv2, h2, rfl⟩
      exact hdisj hm1 (by simp [hfst])
    have hl2 : ∀ kv2 ∈ l2, kv2.1 ≠ fname := by
      intro kv2 h2 heq
      apply hnd2.1
      rw [hfst, ← heq]
      exact List.mem_map.2 ⟨kv2, h2, rfl⟩
    rw [hside l1 hl1, hside l2 hl2, hmid]
    simp
  · rw [validate_config_blank_errors, List.filter_append]
    have hreq : fname ∉ (schemaOf ct).required_fields.map Prod.fst := by
      intro hmemr
      apply hunk
      unfold knownFieldsOf
      exact List.mem_append.2 (Or.inl (List.mem_append.2 (Or.inl hmemr)))
    have hopt : fname ∉ (schemaOf ct).optional_fields.map Prod.fst := by
      intro hmemo
      apply hunk
      unfold knownFieldsOf
      exact List.mem_append.2 (Or.inl (List.mem_append.2 (Or.inr hmemo)))
    rw [req_flatten_filter_nil data ct fname hreq,
      opt_flatten_filter_nil data ct fname hopt hbr]
    rfl

/-- Witness for C5 at a concrete input: an archetype document with the
extra field `unknown_field`. -/
theorem C5_witness :
    ((validate_config
        [("type", Value.vstr "UnitArchetype"), ("id", Value.vstr "s"),
         ("base_health", Value.vint 100), ("base_move_speed", Value.vint 5),
         ("unknown_field", Value.vstr "v")]
        .UNIT_ARCHETYPE blankResult "").warnings.filter
      (fun e => e.path == "unknown_field"))
      = [⟨"unknown_field", "Unknown field \x27unknown_field\x27", "warning"⟩]
    ∧ ((validate_config
        [("type", Value.vstr "UnitArchetype"), ("id", Value.vstr "s"),
         ("base_health", Value.vint 100), ("base_move_speed", Value.vint 5),
         ("unknown_field", Value.vstr "v")]
        .UNIT_ARCHETYPE blankResult "").errors.filter
      (fun e => e.path == "unknown_field")) = [] :=
  ⟨(C5_unknown_field_single_warning _ .UNIT_ARCHETYPE "unknown_field"
      (by decide) (by decide) (by decide) (by decide)).1,
   (C5_unknown_field_single_warning _ .UNIT_ARCHETYPE "unknown_field"
      (by decide) (by decide) (by decide) (by decide)).2.1⟩

lemma C2full (data : List (String × Value)) (ct : ConfigType)
    (fname : String) (ftype : FieldType)
    (hmem : (fname, ftype) ∈ (schemaOf ct).required_fields)
    (hnd : ((schemaOf ct).required_fields.map Prod.fst).Nodup)
    (hdisj : ∀ p ∈ (schemaOf ct).required_fields,
        p.1 ∉ (schemaOf ct).optional_fields.map Prod.fst)
    (hbrs : ∀ p ∈ (schemaOf ct).required_fields, '[' ∉ p.1.data)
    (hcc : ∀ pc ∈ (schemaOf ct).constraints, consSoundB pc.2 = true) :
    (data.lookup fname = none →
      ((validate_config data ct blankResult "").errors.filter
          (fun e => e.path == fname))
        = [⟨fname, "Required field \x27" ++ fname ++ "\x27 is missing",
            "error"⟩])
    ∧ (∀ v, data.lookup fname = some v →
        ((validate_config data ct blankResult "").errors.filter
            (fun e => e.path == fname))
          = ((validate_field_type v ftype fname blankResult).2).errors
            ++ (match (schemaOf ct).constraints.lookup fname with
                | some c =>
                    (validate_constraints v c fname blankResult).errors
                | none => [])
        ∧ (isinst v ftype = true → inRangeB v (consOf ct fname) = true →
            ((validate_config data ct blankResult "").errors.filter
                (fun e => e.path == fname)) = [])
        ∧ ((validate_config data ct blankResult "").errors.filter
              (fun e => e.path == fname)).length ≤ 2
        ∧ (((validate_config data ct blankResult "").errors.filter
              (fun e => e.path == fname)).length = 2 →
            isinst v ftype = false ∧ (v.toNum?).isSome = true)) := by
  have hE := C2core data ct fname ftype hmem hnd (hdisj _ hmem) (hbrs _ hmem)
  constructor
  · intro hnone
    rw [hE, reqErrorsOf_missing _ _ _ _ hnone, fieldPathOf_nil]
  · intro v hv
    have hpres : reqErrorsOf data (schemaOf ct).constraints "" (fname, ftype)
        = ((validate_field_type v ftype fname blankResult).2).errors
          ++ (match (schemaOf ct).constraints.lookup fname with
              | some c => (validate_constraints v c fname blankResult).errors
              | none => []) := by
      have hp := reqErrorsOf_present data (schemaOf ct).constraints ""
        (fname, ftype) v hv
      rw [fieldPathOf_nil] at hp
      exact hp
    have h1 : ((validate_field_type v ftype fname blankResult).2).errors.length
        ≤ 1 := by
      rw [vft_blank_errors]
      split_ifs <;> simp
    have h2 : (match (schemaOf ct).constraints.lookup fname with
        | some c => (validate_constraints v c fname blankResult).errors
        | none => []).length ≤ 1 := by
      cases hc : (schemaOf ct).constraints.lookup fname with
      | none => simp
      | some c =>
          simp only []
          exact consE_len_le_one v c fname (hcc _ (lookup_mem _ _ _ hc))
    refine ⟨by rw [hE, hpres], ?_, ?_, ?_⟩
    · intro ht hr
      rw [hE]
      unfold reqErrorsOf
      rw [reqStep_ok data _ "" blankResult (fname, ftype) v hv ht hr]
      rfl
    · rw [hE, hpres, List.length_append]
      omega
    · intro hlen
      rw [hE, hpres, List.length_append] at hlen
      constructor
      · cases hi : isinst v ftype with
        | false => rfl
        | true =>
            exfalso
            rw [vft_blank_errors, if_pos hi] at hlen
            simp at hlen
            omega
      · cases hc : (schemaOf ct).constraints.lookup fname with
        | none =>
            exfalso
            rw [hc] at hlen
            simp at hlen
            omega
        | some c =>
            rw [hc] at hlen
            simp only [] at hlen
            apply consE_ne_nil_numeric v c fname
            intro hnil
            rw [hnil] at hlen
            simp at hlen
            omega

/-- C2, counterexample to the claim as stated: a required `shots_per_burst`
of `0.5` (a float where `int` is expected, and below the minimum of 1)
contributes TWO errors for the one present field — the failed type check
does not suppress the constraint check. -/
theorem C2_counterexample :
    ("shots_per_burst", FieldType.tyInt)
        ∈ (schemaOf .WEAPON_STATS).required_fields
    ∧ ((validate_config
        [("name", Value.vstr "s"),
         ("shots_per_burst", Value.vfloat (mkRat 1 2)),
         ("fire_rate", Value.vfloat 1),
         ("base_hit_chance", Value.vfloat (mkRat 4 5)),
         ("base_damage", Value.vint 25)]
        .WEAPON_STATS blankResult "").errors.filter
          (fun e => e.path == "shots_per_burst"))
      = [⟨"shots_per_burst", "Expected int, got float", "error"⟩,
         ⟨"shots_per_burst", "Value 0.5 is below minimum 1", "error"⟩]
    ∧ ((validate_config
        [("name", Value.vstr "s"),
         ("shots_per_burst", Value.vfloat (mkRat 1 2)),
         ("fire_rate", Value.vfloat 1),
         ("base_hit_chance", Value.vfloat (mkRat 4 5)),
         ("base_damage", Value.vint 25)]
        .WEAPON_STATS blankResult "").errors.filter
          (fun e => e.path == "shots_per_burst")).length = 2 := by
  exact ⟨by decide, by decide, by decide⟩

/-- C2 as amended: for every required field of the detected kind's schema,
an absent field contributes exactly one error, at the field's path, whose
message names the field and says it is missing.  A present field
contributes the type-check error list followed by the constraint-check
error list; it contributes no error when it passes the type check and is
in range, never more than two errors, and exactly two only when the value
fails the type check while still being numeric (e.g. a float where `int`
is expected) and additionally violates its declared constraint. -/
theorem C2_required_field_errors (data : List (String × Value))
    (ct : ConfigType) (fname : String) (ftype : FieldType)
    (hmem : (fname, ftype) ∈ (schemaOf ct).required_fields) :
    (data.lookup fname = none →
      ((validate_config data ct blankResult "").errors.filter
          (fun e => e.path == fname))
        = [⟨fname, "Required field \x27" ++ fname ++ "\x27 is missing",
            "error"⟩])
    ∧ (∀ v, data.lookup fname = some v →
        ((validate_config data ct blankResult "").errors.filter
            (fun e => e.path == fname))
          = ((validate_field_type v ftype fname blankResult).2).errors
            ++ (match (schemaOf ct).constraints.lookup fname with
                | some c =>
                    (validate_constraints v c fname blankResult).errors
                | none => [])
        ∧ (isinst v ftype = true → inRangeB v (consOf ct fname) = true →
            ((validate_config data ct blankResult "").errors.filter
                (fun e => e.path == fname)) = [])
        ∧ ((validate_config data ct blankResult "").errors.filter
              (fun e => e.path == fname)).length ≤ 2
        ∧ (((validate_config data ct blankResult "").errors.filter
              (fun e => e.path == fname)).length = 2 →
            isinst v ftype = false ∧ (v.toNum?).isSome = true)) := by
  refine C2full data ct fname ftype hmem ?_ ?_ ?_ ?_ <;> cases ct <;> decide

/-- Witness for C2 at a concrete input: a weapon document missing its
required `shots_per_burst` gets exactly the one missing-field error. -/
theorem C2_witness :
    ((validate_config [("name", Value.vstr "s")] .WEAPON_STATS blankResult
        "").errors.filter (fun e => e.path == "shots_per_burst"))
      = [⟨"shots_per_burst",
          "Required field \x27shots_per_burst\x27 is missing", "error"⟩] :=
  (C2_required_field_errors [("name", Value.vstr "s")] .WEAPON_STATS
      "shots_per_burst" .tyInt (by decide)).1 rfl

/-- C3, counterexample to the claim as stated: in this upgrade document
every required field (`name`) is present, correctly typed and in range,
and no field outside the schema's declared set exists (`description` is a
declared optional field) — yet the result is invalid, because the present
optional field has the wrong type.  The claim's premises do not constrain
present optional fields. -/
theorem C3_counterexample :
    detect_config_type
        [("type", Value.vstr "UpgradeDefinition"), ("name", Value.vstr "OP"),
         ("description", Value.vint 5)]
      = .ok (some .UPGRADE_DEFINITION)
    ∧ (schemaOf .UPGRADE_DEFINITION).required_fields = [("name", .tyStr)]
    ∧ List.lookup "name"
        [("type", Value.vstr "UpgradeDefinition"), ("name", Value.vstr "OP"),
         ("description", Value.vint 5)] = some (Value.vstr "OP")
    ∧ isinst (Value.vstr "OP") .tyStr = true
    ∧ inRangeB (Value.vstr "OP") (consOf .UPGRADE_DEFINITION "name") = true
    ∧ (∀ kv ∈ [("type", Value.vstr "UpgradeDefinition"),
        ("name", Value.vstr "OP"), ("description", Value.vint 5)],
        kv.1 ∈ knownFieldsOf .UPGRADE_DEFINITION)
    ∧ (validate_config
        [("type", Value.vstr "UpgradeDefinition"), ("name", Value.vstr "OP"),
         ("description", Value.vint 5)]
        .UPGRADE_DEFINITION blankResult "").errors
      = [⟨"description", "Expected str, got int", "error"⟩]
    ∧ (validate_config
        [("type", Value.vstr "UpgradeDefinition"), ("name", Value.vstr "OP"),
         ("description", Value.vint 5)]
        .UPGRADE_DEFINITION blankResult "").is_valid = false := by
  exact ⟨by decide, rfl, rfl, rfl, rfl, by decide, by decide, by decide⟩

/-- C3 as amended: a detected document in which every required field is
present, correctly typed and in range, every present non-null optional
field is correctly typed, in range, and (for curve-suffixed list fields)
a well-formed curve, and no field outside the declared set (plus the
discriminator) exists, validates with an empty error list, an empty
warning list, and `is_valid` true. -/
theorem C3_valid_document (data : List (String × Value)) (ct : ConfigType)
    (hdet : detect_config_type data = .ok (some ct))
    (h1 : ∀ p ∈ (schemaOf ct).required_fields, ∃ v,
        data.lookup p.1 = some v ∧ isinst v p.2 = true ∧
        inRangeB v (consOf ct p.1) = true)
    (h2 : ∀ p ∈ (schemaOf ct).optional_fields, ∀ v,
        data.lookup p.1 = some v → v ≠ Value.vnone →
        isinst v p.2 = true ∧ inRangeB v (consOf ct p.1) = true ∧
        (pyEndsWith p.1 "_curve" = true → ∀ pts, v = Value.vlist pts →
          curvePointsOK pts = true))
    (h3 : ∀ kv ∈ data, kv.1 ∈ knownFieldsOf ct) :
    (validate_config data ct blankResult "").errors = []
    ∧ (validate_config data ct blankResult "").warnings = []
    ∧ (validate_config data ct blankResult "").is_valid = true := by
  have herr : (validate_config data ct blankResult "").errors = [] := by
    rw [validate_config_blank_errors]
    rw [flatten_nil_of _ ?req, flatten_nil_of _ ?opt]
    · rfl
    case req =>
      intro l hl
      obtain ⟨fld, hfld, rfl⟩ := List.mem_map.1 hl
      obtain ⟨v, hv, ht, hr⟩ := h1 fld hfld
      unfold reqErrorsOf
      rw [reqStep_ok data _ "" blankResult fld v hv ht hr]
      rfl
    case opt =>
      intro l hl
      obtain ⟨fld, hfld, rfl⟩ := List.mem_map.1 hl
      cases hv : data.lookup fld.1 with
      | none => exact optErrorsOf_none data _ "" fld hv
      | some v =>
          by_cases hnn : v = Value.vnone
          · subst hnn
            exact optErrorsOf_vnone data _ "" fld hv
          · obtain ⟨ht, hr, hcv⟩ := h2 fld hfld v hv hnn
            unfold optErrorsOf
            rw [optStep_ok data _ "" blankResult fld v hv hnn ht hr
              (fun pts hpts hend => hcv hend pts hpts)]
            rfl
  have hwarn : (validate_config data ct blankResult "").warnings = [] := by
    rw [validate_config_blank_warnings]
    apply flatten_nil_of
    intro l hl
    obtain ⟨kv, hkv, rfl⟩ := List.mem_map.1 hl
    exact unkWarningsOf_known _ _ _ (h3 kv hkv)
  exact ⟨herr, hwarn, (is_valid_iff _).2 herr⟩

/-- Witness for C3 at a concrete input: the minimal valid upgrade
document. -/
theorem C3_witness :
    (validate_config
        [("type", Value.vstr "UpgradeDefinition"),
         ("name", Value.vstr "Basic Training")]
        .UPGRADE_DEFINITION blankResult "").errors = []
    ∧ (validate_config
        [("type", Value.vstr "UpgradeDefinition"),
         ("name", Value.vstr "Basic Training")]
        .UPGRADE_DEFINITION blankResult "").warnings = []
    ∧ (validate_config
        [("type", Value.vstr "UpgradeDefinition"),
         ("name", Value.vstr "Basic Training")]
        .UPGRADE_DEFINITION blankResult "").is_valid = true := by
  refine C3_valid_document _ .UPGRADE_DEFINITION (by decide) ?_ ?_ (by decide)
  · intro p hp
    have hp2 : p ∈ [("name", FieldType.tyStr)] := hp
    rw [List.mem_singleton] at hp2
    subst hp2
    exact ⟨Value.vstr "Basic Training", rfl, rfl, rfl⟩
  · intro p hp v hv hnn
    have hp2 : p ∈ [("description", FieldType.tyStr),
        ("hit_chance_multiplier", FieldType.tyNum),
        ("damage_multiplier", FieldType.tyNum),
        ("elevation_bonus", FieldType.tyNum),
        ("cost", FieldType.tyInt)] := hp
    fin_cases hp2 <;> exact Option.noConfusion hv

end Relic
